import Mathlib

/-!
Shallow embedding of `pywps/validator/complexvalidator.py`: the four
complex-input validators (`validategml`, `validategeojson`,
`validateshapefile`, `validategeotiff`) over an explicit record of the
external collaborators (mimetypes, OGR/GDAL drivers, zipfile, urllib,
lxml.etree, jsonschema).  Python exceptions are modelled with
`Except PyExn`; a validator call that raises in Python is an `.error`
value here, a normal return is `.ok`.
-/

/-- A Python exception, as the except-clauses of the source distinguish
them: `jsonschema.ValidationError` (the only class `validategeojson`'s
try-block catches) versus every other exception class. -/
inductive PyExn where
  | validationError
  | other (msg : String)
deriving DecidableEq

/-- Modelled from the spec: `pywps.validator.mode.MODE` is not among the
staged sources; the spec fixes the ordinal scale NONE=0 < SIMPLE=1 <
STRICT=2 < VERYSTRICT=3. -/
def MODE.NONE : Nat := 0

/-- Modelled from the spec: SIMPLE = 1 on the MODE scale. -/
def MODE.SIMPLE : Nat := 1

/-- Modelled from the spec: STRICT = 2 on the MODE scale. -/
def MODE.STRICT : Nat := 2

/-- Modelled from the spec: VERYSTRICT = 3 on the MODE scale. -/
def MODE.VERYSTRICT : Nat := 3

/-- A format registry entry: its canonical MIME type. -/
structure FormatDef where
  mime_type : String
deriving DecidableEq

/-- Modelled from the spec: canonical MIME type of the GML format
(`pywps.inout.formats.FORMATS` is not among the staged sources; the
claims depend only on the comparison with it, not on the string). -/
def FORMATS.GML : FormatDef := { mime_type := "application/gml+xml" }

/-- Modelled from the spec: canonical MIME type of the GeoJSON format. -/
def FORMATS.GEOJSON : FormatDef := { mime_type := "application/vnd.geo+json" }

/-- Modelled from the spec: canonical MIME type of the Shapefile format. -/
def FORMATS.SHP : FormatDef := { mime_type := "application/x-zipped-shp" }

/-- Modelled from the spec: canonical MIME type of the GeoTIFF format. -/
def FORMATS.GEOTIFF : FormatDef := { mime_type := "image/tiff; subtype=geotiff" }

/-- The `data_format` of a `ComplexInput`: the declared MIME type (a
Python value that may be `None`) and the optional schema URL. -/
structure DataFormat where
  mime_type : Option String
  schema : Option String
deriving DecidableEq

/-- The part of `ComplexInput` the validators read: `file` (path),
`tempdir` (scratch directory), `stream` (an opaque handle for
`data_input.stream`) and `data_format`. -/
structure DataInput where
  file : String
  tempdir : String
  stream : Nat
  data_format : DataFormat
deriving DecidableEq

/-- One `z.extract(name, data_input.tempdir)` call performed by
`validateshapefile` at MODE.STRICT. -/
structure ExtractEvent where
  member : String
  dest : String
deriving DecidableEq

/-- The external collaborators, one field per call site of the source.
Opaque documents and schema objects are abstracted to `Nat` tokens;
fallible calls return `Except PyExn`.  Per the source's observed
behaviour, `ogr.Open`/`gdal.Open` return a data source or `None` (no
exception) and the data source is abstracted to its driver name. -/
structure World where
  /-- `mimetypes.guess_type(name, strict=False)`: `(mtype, encoding)`. -/
  guess_type : String → Option String × Option String
  /-- `ogr.Open(path)`: driver name of the data source, `none` if unopened. -/
  ogrOpen : String → Option String
  /-- `gdal.Open(path)`: driver short name, `none` if unopened. -/
  gdalOpen : String → Option String
  /-- `zipfile.ZipFile(path)` followed by `.namelist()`; raises on a non-zip. -/
  zipOpen : String → Except PyExn (List String)
  /-- `urlopen(schema_url)`; the argument is `data_format.schema`. -/
  urlopen : Option String → Except PyExn Nat
  /-- `etree.parse(response)` on the fetched schema document. -/
  etreeParse : Nat → Except PyExn Nat
  /-- `etree.XMLSchema(doc)`. -/
  xmlSchema : Nat → Except PyExn Nat
  /-- `etree.parse(data_input.stream)`. -/
  etreeParseStream : Nat → Except PyExn Nat
  /-- `gmlschema.validate(doc)`. -/
  xmlValidate : Nat → Nat → Except PyExn Bool
  /-- `os.path.abspath(os.path.dirname(__file__))` seen by `_get_schemas_home`. -/
  fileDirAbs : String
  /-- `json.load(open(path))` of a bundled schema file. -/
  loadJson : String → Except PyExn Nat
  /-- `jsonschema.RefResolver(...)` plus `jsonschema.Draft4Validator(...)`:
  a pure construction from the four loaded schema documents. -/
  mkValidator : Nat → Nat → Nat → Nat → Nat
  /-- `data_input.stream.read()`. -/
  streamRead : Nat → Except PyExn String
  /-- `json.loads(text)`. -/
  jsonLoads : String → Except PyExn Nat
  /-- `validator.validate(document)`: `.ok` on success, raises
  `ValidationError` (or another exception) otherwise. -/
  jsValidate : Nat → Nat → Except PyExn Unit

/-- Index of the last occurrence of `c` in `cs` (Python `str.rfind`). -/
def lastIdxOf (cs : List Char) (c : Char) : Option Nat :=
  match cs with
  | [] => none
  | x :: xs =>
    match lastIdxOf xs c with
    | some i => some (i + 1)
    | none => if x = c then some 0 else none

/-- The extension component of `os.path.splitext(p)` (posix rules): the
suffix from the last dot, provided that dot lies after the last path
separator and some non-dot character of the basename precedes it. -/
def splitextExt (p : String) : String :=
  let cs := p.toList
  match lastIdxOf cs '.' with
  | none => ""
  | some d =>
    let fi : Nat :=
      match lastIdxOf cs '/' with
      | some i => i + 1
      | none => 0
    if fi ≤ d ∧ ((cs.drop fi).take (d - fi)).any (fun ch => ch ≠ '.') then
      String.mk (cs.drop d)
    else ""

/-- ASCII lowering of one character (`str.lower`; the extensions the
source compares are ASCII). -/
def charLower (c : Char) : Char :=
  if 'A' ≤ c ∧ c ≤ 'Z' then Char.ofNat (c.toNat + 32) else c

/-- `str.lower()` (ASCII). -/
def strLower (s : String) : String :=
  String.mk (s.toList.map charLower)

/-- `os.path.splitext(name)[1].lower() == '.shp'`. -/
def isShpName (n : String) : Bool :=
  strLower (splitextExt n) == ".shp"

/-- `s.startswith(c)` over the character lists. -/
def strStarts (s c : String) : Bool :=
  c.toList.isPrefixOf s.toList

/-- `s.endswith(c)` over the character lists. -/
def strEnds (s c : String) : Bool :=
  c.toList.reverse.isPrefixOf s.toList.reverse

/-- `os.path.join(a, b)` for two posix components. -/
def pathJoin (a b : String) : String :=
  if strStarts b "/" then b
  else if a = "" || strEnds a "/" then a ++ b
  else a ++ "/" ++ b

/-- Python truthiness of a str-or-None variable (`if shape_name:`). -/
def pyTruthyStr : Option String → Bool
  | none => false
  | some s => s != ""

/-- `_get_schemas_home()`: `join(abspath(dirname(__file__)), pardir, "schemas")`. -/
def getSchemasHome (w : World) : String :=
  pathJoin (pathJoin w.fileDirAbs "..") "schemas"

/-- The try-block of `validategml` at MODE.VERYSTRICT: fetch the schema
from `data_format.schema`, parse it, build the XML schema, parse the
input stream and validate it. -/
def gmlVeryStrictTry (d : DataInput) (w : World) : Except PyExn Bool := do
  let schema_url := d.data_format.schema
  let resp ← w.urlopen schema_url
  let gmlschema_doc ← w.etreeParse resp
  let gmlschema ← w.xmlSchema gmlschema_doc
  let idoc ← w.etreeParseStream d.stream
  w.xmlValidate gmlschema idoc

/-- `validategml(data_input, mode)`: NONE passes unconditionally, SIMPLE
compares the declared MIME type with the guessed and canonical ones,
STRICT requires the OGR driver name "GML", VERYSTRICT runs the schema
try-block with a catch-all except clause.  Each level overwrites
`passed`. -/
def validategml (d : DataInput) (mode : Nat) (w : World) : Except PyExn Bool :=
  let passed := false
  let passed := if MODE.NONE ≤ mode then true else passed
  let passed :=
    if MODE.SIMPLE ≤ mode then
      let name := d.file
      let mtype := (w.guess_type name).1
      decide (d.data_format.mime_type = mtype ∨
              d.data_format.mime_type = some FORMATS.GML.mime_type)
    else passed
  let passed :=
    if MODE.STRICT ≤ mode then
      match w.ogrOpen d.file with
      | some drv => drv == "GML"
      | none => false
    else passed
  let passed :=
    if MODE.VERYSTRICT ≤ mode then
      match gmlVeryStrictTry d w with
      | .ok ok => ok
      | .error _ => false
    else passed
  .ok passed

/-- The try-block of `validategeojson` at MODE.VERYSTRICT:
`validator.validate(json.loads(data_input.stream.read()))` then
`passed = True`; `v` is the constructed Draft4Validator token. -/
def geojsonTry (d : DataInput) (w : World) (v : Nat) : Except PyExn Bool := do
  let s ← w.streamRead d.stream
  let doc ← w.jsonLoads s
  let _ ← w.jsValidate v doc
  pure true

/-- `validategeojson(data_input, mode)`.  At MODE.VERYSTRICT the four
bundled schema files are loaded and the validator constructed outside
any try; the try-block's except clause catches only
`jsonschema.ValidationError`, so any other exception propagates. -/
def validategeojson (d : DataInput) (mode : Nat) (w : World) : Except PyExn Bool := do
  let passed := false
  let passed := if MODE.NONE ≤ mode then true else passed
  let passed :=
    if MODE.SIMPLE ≤ mode then
      let name := d.file
      let mtype := (w.guess_type name).1
      decide (d.data_format.mime_type = mtype ∨
              d.data_format.mime_type = some FORMATS.GEOJSON.mime_type)
    else passed
  let passed :=
    if MODE.STRICT ≤ mode then
      match w.ogrOpen d.file with
      | some drv => drv == "GeoJSON"
      | none => false
    else passed
  if MODE.VERYSTRICT ≤ mode then
    let schema_home := pathJoin (getSchemasHome w) "geojson"
    let base_schema := pathJoin schema_home "geojson.json"
    let geojson_base ← w.loadJson base_schema
    let crs_json ← w.loadJson (pathJoin schema_home "crs.json")
    let bbox_json ← w.loadJson (pathJoin schema_home "bbox.json")
    let geometry_json ← w.loadJson (pathJoin schema_home "geometry.json")
    let v := w.mkValidator geojson_base crs_json bbox_json geometry_json
    match geojsonTry d w v with
    | .ok ok => pure ok
    | .error PyExn.validationError => pure false
    | .error e => throw e
  else
    pure passed

/-- The extraction loop of `validateshapefile` at MODE.STRICT: extract
every member into `tempdir` (recorded as `ExtractEvent`s, in namelist
order) while updating `shape_name` whenever a member's extension is
`.shp`. -/
def shpLoop (tempdir : String) : List String → Option String →
    List ExtractEvent × Option String
  | [], sn => ([], sn)
  | n :: rest, sn =>
    let sn2 := if isShpName n then some n else sn
    let r := shpLoop tempdir rest sn2
    (⟨n, tempdir⟩ :: r.1, r.2)

/-- `validateshapefile(data_input, mode)`.  The Bool is `passed`; the
list records the `z.extract` calls.  At MODE.STRICT, a missing `.shp`
member leaves the local `data_source` unassigned, so the subsequent
`if data_source:` raises `UnboundLocalError`. -/
def validateshapefile (d : DataInput) (mode : Nat) (w : World) :
    Except PyExn (Bool × List ExtractEvent) := do
  let passed := false
  let passed := if MODE.NONE ≤ mode then true else passed
  let passed :=
    if MODE.SIMPLE ≤ mode then
      let name := d.file
      let mtype := (w.guess_type name).1
      decide (d.data_format.mime_type = mtype ∨
              d.data_format.mime_type = some FORMATS.SHP.mime_type)
    else passed
  if MODE.STRICT ≤ mode then
    let names ← w.zipOpen d.file
    let r := shpLoop d.tempdir names none
    let shape_name := r.2
    let dsrc : Option (Option String) :=
      if pyTruthyStr shape_name then
        some (w.ogrOpen (pathJoin d.tempdir (shape_name.getD "")))
      else none
    match dsrc with
    | some ds =>
      let passed :=
        match ds with
        | some drv => drv == "ESRI Shapefile"
        | none => false
      pure (passed, r.1)
    | none => throw (PyExn.other "UnboundLocalError")
  else
    pure (passed, [])

/-- `validategeotiff(data_input, mode)`: like `validategml` but with the
GDAL raster driver and short name "GTiff"; no VERYSTRICT branch. -/
def validategeotiff (d : DataInput) (mode : Nat) (w : World) : Except PyExn Bool :=
  let passed := false
  let passed := if MODE.NONE ≤ mode then true else passed
  let passed :=
    if MODE.SIMPLE ≤ mode then
      let name := d.file
      let mtype := (w.guess_type name).1
      decide (d.data_format.mime_type = mtype ∨
              d.data_format.mime_type = some FORMATS.GEOTIFF.mime_type)
    else passed
  let passed :=
    if MODE.STRICT ≤ mode then
      match w.gdalOpen d.file with
      | some drv => drv == "GTiff"
      | none => false
    else passed
  .ok passed

/-- The driver-name comparison the STRICT tier performs once the format
library has answered: `True` exactly when a data source was returned and
its driver name equals the expected canonical driver name. -/
def ogrDriverCheck (ds : Option String) (expected : String) : Bool :=
  match ds with
  | some drv => drv == expected
  | none => false

/-- The SIMPLE-tier comparison: declared MIME type versus the guessed
type and the canonical type of the format. -/
def mimeSimpleCheck (d : DataInput) (w : World) (canonical : String) : Bool :=
  decide (d.data_format.mime_type = (w.guess_type d.file).1 ∨
          d.data_format.mime_type = some canonical)

/-- The verdict of `validategml`'s VERYSTRICT tier: the try-block's Bool
on success, `False` on any exception. -/
def gmlVeryStrictCheck (d : DataInput) (w : World) : Bool :=
  match gmlVeryStrictTry d w with
  | .ok ok => ok
  | .error _ => false

/-- The archive member with extension `.shp` occurring last in the
archive's member list. -/
def lastShpMember (names : List String) : Option String :=
  (names.filter isShpName).getLast?

/-- The verdict of `validateshapefile`'s STRICT tier on the runs where it
returns at all: driver check on the last `.shp` member, `False` when the
archive cannot be listed or holds no `.shp` member. -/
def shpStrictCheck (d : DataInput) (w : World) : Bool :=
  match w.zipOpen d.file with
  | .error _ => false
  | .ok names =>
    match lastShpMember names with
    | some sn => ogrDriverCheck (w.ogrOpen (pathJoin d.tempdir sn)) "ESRI Shapefile"
    | none => false

/-- A concrete declared format: canonical GML MIME type and a schema URL. -/
def fmtGml : DataFormat :=
  { mime_type := some "application/gml+xml", schema := some "http://sch.example/gml.xsd" }

/-- A concrete input. -/
def dIn0 : DataInput :=
  { file := "input.gml", tempdir := "/tmp/scratch", stream := 0, data_format := fmtGml }

/-- A concrete input whose declared MIME type is absent (`None`). -/
def dNone : DataInput :=
  { file := "input.bin", tempdir := "/tmp/scratch", stream := 0,
    data_format := { mime_type := none, schema := none } }

/-- A collaborator record on which every external call succeeds. -/
def wOk : World :=
  { guess_type := fun _ => (some "application/gml+xml", none)
    ogrOpen := fun _ => some "GML"
    gdalOpen := fun _ => some "GTiff"
    zipOpen := fun _ => .ok ["a.shp", "a.dbf"]
    urlopen := fun _ => .ok 1
    etreeParse := fun _ => .ok 2
    xmlSchema := fun _ => .ok 3
    etreeParseStream := fun _ => .ok 4
    xmlValidate := fun _ _ => .ok true
    fileDirAbs := "/opt/pywps/validator"
    loadJson := fun _ => .ok 5
    mkValidator := fun _ _ _ _ => 6
    streamRead := fun _ => .ok "{}"
    jsonLoads := fun _ => .ok 7
    jsValidate := fun _ _ => .ok () }

/-- Like `wOk` but `json.loads` of the input raises a JSONDecodeError
(a `ValueError`, not a `jsonschema.ValidationError`). -/
def wBadJson : World := { wOk with jsonLoads := fun _ => .error (PyExn.other "JSONDecodeError") }

/-- Like `wOk` but `validator.validate` raises `ValidationError`. -/
def wValErr : World := { wOk with jsValidate := fun _ _ => .error PyExn.validationError }

/-- Like `wOk` but the zip archive holds no `.shp` member. -/
def wNoShp : World := { wOk with zipOpen := fun _ => .ok ["a.dbf", "a.prj"] }

/-- Like `wOk` but the archive holds two `.shp` members and the vector
driver recognizes the extracted file as an ESRI Shapefile. -/
def wShp : World :=
  { wOk with
    zipOpen := fun _ => .ok ["a.dbf", "a.shp", "b.shp"]
    ogrOpen := fun _ => some "ESRI Shapefile" }

/-- Like `wOk` but `mimetypes.guess_type` yields no type. -/
def wNoGuess : World := { wOk with guess_type := fun _ => (none, none) }

theorem exceptBind_ok {e a b : Type} (x : a) (f : a → Except e b) :
    (Except.ok x : Except e a) >>= f = f x := rfl

theorem exceptBind_err {e a b : Type} (er : e) (f : a → Except e b) :
    (Except.error er : Except e a) >>= f = Except.error er := rfl

theorem exceptMap_ok {e a b : Type} (f : a → b) (x : a) :
    f <$> (Except.ok x : Except e a) = Except.ok (f x) := rfl

theorem exceptMap_err {e a b : Type} (f : a → b) (er : e) :
    f <$> (Except.error er : Except e a) = Except.error er := rfl

theorem exceptThrow {e a : Type} (er : e) : (throw er : Except e a) = Except.error er := rfl

theorem exceptPure {e a : Type} (x : a) : (pure x : Except e a) = Except.ok x := rfl

theorem mem_of_getLast?_some {a : Type} : ∀ {l : List a} {x : a}, l.getLast? = some x → x ∈ l
  | [b], x, h => by
    rw [List.getLast?_singleton] at h
    exact (Option.some.injEq _ _ ▸ h : b = x) ▸ List.mem_singleton_self b
  | b :: c :: t, x, h => by
    rw [List.getLast?_cons_cons] at h
    exact List.mem_cons_of_mem b (mem_of_getLast?_some h)

theorem shpLoop_fst (td : String) (names : List String) (sn : Option String) :
    (shpLoop td names sn).1 = names.map (fun n => ExtractEvent.mk n td) := by
  induction names generalizing sn with
  | nil => rfl
  | cons n rest ih => simp [shpLoop, ih]

theorem shpLoop_snd (td : String) (names : List String) (sn : Option String) :
    (shpLoop td names sn).2 = ((names.filter isShpName).getLast?).elim sn some := by
  induction names generalizing sn with
  | nil => rfl
  | cons n rest ih =>
    have hstep : (shpLoop td (n :: rest) sn).2 =
        (shpLoop td rest (if isShpName n then some n else sn)).2 := rfl
    rw [hstep, ih]
    by_cases h : isShpName n = true
    · rw [if_pos h, List.filter_cons_of_pos h]
      cases hr : rest.filter isShpName with
      | nil =>
        rw [List.getLast?_singleton]
        exact rfl
      | cons b l =>
        rw [List.getLast?_cons_cons]
        cases hx : (b :: l).getLast? with
        | none => exact absurd (List.getLast?_eq_none_iff.mp hx) (by simp)
        | some x => rfl
    · rw [if_neg h, List.filter_cons_of_neg (by simpa using h)]

theorem shapefile_strict_spec (d : DataInput) (w : World) (names : List String)
    (hzip : w.zipOpen d.file = .ok names) :
    validateshapefile d MODE.STRICT w =
      (match (names.filter isShpName).getLast? with
       | some sn =>
         .ok (ogrDriverCheck (w.ogrOpen (pathJoin d.tempdir sn)) "ESRI Shapefile",
              names.map (fun n => ExtractEvent.mk n d.tempdir))
       | none => .error (PyExn.other "UnboundLocalError")) := by
  cases hl : (names.filter isShpName).getLast? with
  | none =>
    have h2 : (shpLoop d.tempdir names none).2 = none := by
      rw [shpLoop_snd, hl]
      rfl
    simp [validateshapefile, MODE.NONE, MODE.SIMPLE, MODE.STRICT, hzip, h2,
          exceptBind_ok, pyTruthyStr, exceptThrow]
  | some sn =>
    have hmem : sn ∈ names.filter isShpName := mem_of_getLast?_some hl
    have hshp : isShpName sn = true := (List.mem_filter.mp hmem).2
    have hne : sn ≠ "" := by
      intro he
      rw [he] at hshp
      exact absurd hshp (by decide)
    have h2 : (shpLoop d.tempdir names none).2 = some sn := by
      rw [shpLoop_snd, hl]
      rfl
    simp [validateshapefile, MODE.NONE, MODE.SIMPLE, MODE.STRICT, hzip, h2,
          exceptBind_ok, pyTruthyStr, hne, shpLoop_fst]
    cases w.ogrOpen (pathJoin d.tempdir sn) <;> rfl

/-- Claim C1, amended: at MODE.VERYSTRICT `validategml` catches every
exception of its fetch/parse/validate block (it always returns a
verdict, and `False` whenever the block raised), but `validategeojson`
catches only `jsonschema.ValidationError` raised inside its try-block:
with the schema files loading fine, a ValidationError gives the verdict
`False`, while every other exception propagates to the caller — an
exception from a bundled schema-file load (those loads sit outside the
try-block, so even a ValidationError from them escapes), a read error
on the input stream, a JSON parse error of the input document, or a
non-ValidationError failure of the validate call itself. -/
theorem verystrict_exception_policy (d : DataInput) (w : World) :
    (∀ mode, ∃ b, validategml d mode w = .ok b) ∧
    (∀ e, gmlVeryStrictTry d w = .error e → validategml d MODE.VERYSTRICT w = .ok false) ∧
    (∀ (jf : String → Nat) (s : String) (doc : Nat),
      (∀ p, w.loadJson p = .ok (jf p)) →
      w.streamRead d.stream = .ok s →
      w.jsonLoads s = .ok doc →
      (∀ v dc, w.jsValidate v dc = .error PyExn.validationError) →
      validategeojson d MODE.VERYSTRICT w = .ok false) ∧
    (∀ (jf : String → Nat) (s : String) (m : String),
      (∀ p, w.loadJson p = .ok (jf p)) →
      w.streamRead d.stream = .ok s →
      w.jsonLoads s = .error (PyExn.other m) →
      validategeojson d MODE.VERYSTRICT w = .error (PyExn.other m)) ∧
    (∀ e,
      w.loadJson (pathJoin (pathJoin (getSchemasHome w) "geojson") "geojson.json") =
        .error e →
      validategeojson d MODE.VERYSTRICT w = .error e) ∧
    (∀ (jf : String → Nat) (m : String),
      (∀ p, w.loadJson p = .ok (jf p)) →
      w.streamRead d.stream = .error (PyExn.other m) →
      validategeojson d MODE.VERYSTRICT w = .error (PyExn.other m)) ∧
    (∀ (jf : String → Nat) (s : String) (doc : Nat) (m : String),
      (∀ p, w.loadJson p = .ok (jf p)) →
      w.streamRead d.stream = .ok s →
      w.jsonLoads s = .ok doc →
      (∀ v dc, w.jsValidate v dc = .error (PyExn.other m)) →
      validategeojson d MODE.VERYSTRICT w = .error (PyExn.other m)) := by
  refine ⟨fun mode => ⟨_, rfl⟩, ?_, ?_, ?_, ?_, ?_, ?_⟩
  · intro e he
    simp [validategml, MODE.NONE, MODE.SIMPLE, MODE.STRICT, MODE.VERYSTRICT, he]
  · intro jf s doc hload hs hj hv
    simp [validategeojson, MODE.NONE, MODE.SIMPLE, MODE.STRICT, MODE.VERYSTRICT,
          hload, geojsonTry, hs, hj, hv, exceptBind_ok, exceptBind_err,
          exceptMap_ok, exceptMap_err, exceptThrow, exceptPure]
  · intro jf s m hload hs hj
    simp [validategeojson, MODE.NONE, MODE.SIMPLE, MODE.STRICT, MODE.VERYSTRICT,
          hload, geojsonTry, hs, hj, exceptBind_ok, exceptBind_err,
          exceptMap_ok, exceptMap_err, exceptThrow, exceptPure]
  · intro e he
    simp [validategeojson, MODE.NONE, MODE.SIMPLE, MODE.STRICT, MODE.VERYSTRICT,
          he, exceptBind_err]
  · intro jf m hload hs
    simp [validategeojson, MODE.NONE, MODE.SIMPLE, MODE.STRICT, MODE.VERYSTRICT,
          hload, geojsonTry, hs, exceptBind_ok, exceptBind_err,
          exceptMap_ok, exceptMap_err, exceptThrow, exceptPure]
  · intro jf s doc m hload hs hj hv
    simp [validategeojson, MODE.NONE, MODE.SIMPLE, MODE.STRICT, MODE.VERYSTRICT,
          hload, geojsonTry, hs, hj, hv, exceptBind_ok, exceptBind_err,
          exceptMap_ok, exceptMap_err, exceptThrow, exceptPure]

/-- Claim C1 witness: the catching branch at a concrete input — a
`ValidationError` from `validator.validate` becomes the verdict `False`. -/
theorem verystrict_exception_policy_witness :
    validategeojson dIn0 MODE.VERYSTRICT wValErr = .ok false :=
  (verystrict_exception_policy dIn0 wValErr).2.2.1 (fun _ => 5) "{}" 7
    (fun _ => rfl) rfl rfl (fun _ _ => rfl)

/-- Claim C1 counterexample: a malformed input document makes
`json.loads` raise a JSONDecodeError inside the try-block of
`validategeojson`; its except-clause names only
`jsonschema.ValidationError`, so the exception leaves the validator —
contradicting the claim that no exception from the VERYSTRICT tier ever
propagates. -/
theorem geojson_verystrict_raises_cex :
    validategeojson dIn0 MODE.VERYSTRICT wBadJson = .error (PyExn.other "JSONDecodeError") := by
  rfl

/-- Claim C2, code-bug evidence: on a zip archive with members
`["a.dbf", "a.prj"]` — hence no `.shp` member — `validateshapefile` at
MODE.STRICT raises `UnboundLocalError` (the local `data_source` is only
assigned under `if shape_name:`, and `if data_source:` then reads an
unassigned local) instead of returning the verdict `False` that the
spec, and the handling of every other failure in this file, intend. -/
theorem shapefile_missing_shp_raises :
    validateshapefile dIn0 MODE.STRICT wNoShp = .error (PyExn.other "UnboundLocalError") := by
  rfl

/-- Claim C3: the verdict returned is the result of the highest-mode
check that ran — each tier overwrites `passed`, so at MODE.STRICT the
verdict is exactly the STRICT check's result, whatever the SIMPLE
comparison would have said (the STRICT verdict depends only on the
driver oracle, as the last conjunct makes explicit). -/
theorem verdict_replaces_lower_checks (d : DataInput) (w : World) :
    validategml d MODE.SIMPLE w = .ok (mimeSimpleCheck d w FORMATS.GML.mime_type) ∧
    validategml d MODE.STRICT w = .ok (ogrDriverCheck (w.ogrOpen d.file) "GML") ∧
    validategml d MODE.VERYSTRICT w = .ok (gmlVeryStrictCheck d w) ∧
    validategeojson d MODE.STRICT w = .ok (ogrDriverCheck (w.ogrOpen d.file) "GeoJSON") ∧
    validategeotiff d MODE.STRICT w = .ok (ogrDriverCheck (w.gdalOpen d.file) "GTiff") ∧
    (∀ b evs, validateshapefile d MODE.STRICT w = .ok (b, evs) → b = shpStrictCheck d w) ∧
    (∀ w2 : World, w2.ogrOpen = w.ogrOpen →
      validategml d MODE.STRICT w2 = validategml d MODE.STRICT w) := by
  refine ⟨rfl, rfl, rfl, rfl, rfl, ?_, ?_⟩
  · intro b evs hok
    cases hz : w.zipOpen d.file with
    | error e =>
      simp [validateshapefile, MODE.NONE, MODE.SIMPLE, MODE.STRICT, hz, exceptBind_err] at hok
    | ok names =>
      rw [shapefile_strict_spec d w names hz] at hok
      cases hl : (names.filter isShpName).getLast? with
      | some sn =>
        rw [hl] at hok
        simp only [Except.ok.injEq, Prod.mk.injEq] at hok
        rw [← hok.1]
        simp [shpStrictCheck, lastShpMember, hz, hl]
      | none =>
        rw [hl] at hok
        exact absurd hok (by simp)
  · intro w2 hw
    calc validategml d MODE.STRICT w2
        = .ok (ogrDriverCheck (w2.ogrOpen d.file) "GML") := rfl
      _ = .ok (ogrDriverCheck (w.ogrOpen d.file) "GML") := by rw [hw]
      _ = validategml d MODE.STRICT w := rfl

/-- Claim C3 witness: the SIMPLE conjunct at a concrete input. -/
theorem verdict_replaces_lower_checks_witness :
    validategml dIn0 MODE.SIMPLE wOk = .ok (mimeSimpleCheck dIn0 wOk FORMATS.GML.mime_type) :=
  (verdict_replaces_lower_checks dIn0 wOk).1

/-- Claim C4: every one of the four validators returns True at
MODE.NONE, for every input and every behaviour of the collaborators. -/
theorem mode_none_always_true (d : DataInput) (w : World) :
    validategml d MODE.NONE w = .ok true ∧
    validategeojson d MODE.NONE w = .ok true ∧
    validateshapefile d MODE.NONE w = .ok (true, []) ∧
    validategeotiff d MODE.NONE w = .ok true :=
  ⟨rfl, rfl, rfl, rfl⟩

/-- Claim C5: at MODE.SIMPLE each validator passes exactly when the
declared MIME type equals the type guessed from the file name or the
canonical type of the format; in particular a declared type equal to
the canonical one is sufficient on its own. -/
theorem simple_mime_iff (d : DataInput) (w : World) :
    (validategml d MODE.SIMPLE w = .ok true ↔
      (d.data_format.mime_type = (w.guess_type d.file).1 ∨
       d.data_format.mime_type = some FORMATS.GML.mime_type)) ∧
    (validategeojson d MODE.SIMPLE w = .ok true ↔
      (d.data_format.mime_type = (w.guess_type d.file).1 ∨
       d.data_format.mime_type = some FORMATS.GEOJSON.mime_type)) ∧
    (validateshapefile d MODE.SIMPLE w = .ok (true, []) ↔
      (d.data_format.mime_type = (w.guess_type d.file).1 ∨
       d.data_format.mime_type = some FORMATS.SHP.mime_type)) ∧
    (validategeotiff d MODE.SIMPLE w = .ok true ↔
      (d.data_format.mime_type = (w.guess_type d.file).1 ∨
       d.data_format.mime_type = some FORMATS.GEOTIFF.mime_type)) ∧
    (d.data_format.mime_type = some FORMATS.GML.mime_type →
      validategml d MODE.SIMPLE w = .ok true) := by
  refine ⟨?_, ?_, ?_, ?_, ?_⟩
  · simp [validategml, MODE.NONE, MODE.SIMPLE, MODE.STRICT, MODE.VERYSTRICT]
  · simp [validategeojson, MODE.NONE, MODE.SIMPLE, MODE.STRICT, MODE.VERYSTRICT, exceptPure]
  · simp [validateshapefile, MODE.NONE, MODE.SIMPLE, MODE.STRICT, exceptPure]
  · simp [validategeotiff, MODE.NONE, MODE.SIMPLE, MODE.STRICT]
  · intro h
    simp [validategml, MODE.NONE, MODE.SIMPLE, MODE.STRICT, MODE.VERYSTRICT, h]

/-- Claim C5 witness: a declared type equal to the canonical GML type
passes at a concrete input whose guessed type is the same string. -/
theorem simple_mime_iff_witness : validategml dIn0 MODE.SIMPLE wOk = .ok true :=
  (simple_mime_iff dIn0 wOk).1.mpr (Or.inr rfl)

/-- Claim C6: at MODE.STRICT the verdict of the three open-based
validators is the driver-name comparison when the library opens the
file, and `False` — an ordinary return, not an exception — when the
library returns an empty result. -/
theorem strict_driver_name_check (d : DataInput) (w : World) :
    (∀ drv, w.ogrOpen d.file = some drv →
      validategml d MODE.STRICT w = .ok (drv == "GML") ∧
      validategeojson d MODE.STRICT w = .ok (drv == "GeoJSON")) ∧
    (w.ogrOpen d.file = none →
      validategml d MODE.STRICT w = .ok false ∧
      validategeojson d MODE.STRICT w = .ok false) ∧
    (∀ drv, w.gdalOpen d.file = some drv →
      validategeotiff d MODE.STRICT w = .ok (drv == "GTiff")) ∧
    (w.gdalOpen d.file = none → validategeotiff d MODE.STRICT w = .ok false) := by
  refine ⟨?_, ?_, ?_, ?_⟩
  · intro drv h
    constructor
    · simp [validategml, MODE.NONE, MODE.SIMPLE, MODE.STRICT, MODE.VERYSTRICT, h]
    · simp [validategeojson, MODE.NONE, MODE.SIMPLE, MODE.STRICT, MODE.VERYSTRICT, h, exceptPure]
  · intro h
    constructor
    · simp [validategml, MODE.NONE, MODE.SIMPLE, MODE.STRICT, MODE.VERYSTRICT, h]
    · simp [validategeojson, MODE.NONE, MODE.SIMPLE, MODE.STRICT, MODE.VERYSTRICT, h, exceptPure]
  · intro drv h
    simp [validategeotiff, MODE.NONE, MODE.SIMPLE, MODE.STRICT, h]
  · intro h
    simp [validategeotiff, MODE.NONE, MODE.SIMPLE, MODE.STRICT, h]

/-- Claim C6 witness: the GML branch at a concrete input whose driver
oracle answers "GML". -/
theorem strict_driver_name_check_witness : validategml dIn0 MODE.STRICT wOk = .ok true :=
  ((strict_driver_name_check dIn0 wOk).1 "GML" rfl).1

/-- Claim C7: for the two formats with no VERYSTRICT tier, requesting
MODE.VERYSTRICT yields exactly the MODE.STRICT behaviour. -/
theorem verystrict_collapses_to_strict (d : DataInput) (w : World) :
    validateshapefile d MODE.VERYSTRICT w = validateshapefile d MODE.STRICT w ∧
    validategeotiff d MODE.VERYSTRICT w = validategeotiff d MODE.STRICT w :=
  ⟨rfl, rfl⟩

/-- Claim C8: the validators are deterministic — their outcome is a
function of the input, the mode and the collaborators' answers alone:
two worlds whose oracles answer identically yield identical outcomes
for every validator, input and mode. -/
theorem validators_deterministic (d : DataInput) (mode : Nat) (w1 w2 : World)
    (h1 : w1.guess_type = w2.guess_type) (h2 : w1.ogrOpen = w2.ogrOpen)
    (h3 : w1.gdalOpen = w2.gdalOpen) (h4 : w1.zipOpen = w2.zipOpen)
    (h5 : w1.urlopen = w2.urlopen) (h6 : w1.etreeParse = w2.etreeParse)
    (h7 : w1.xmlSchema = w2.xmlSchema) (h8 : w1.etreeParseStream = w2.etreeParseStream)
    (h9 : w1.xmlValidate = w2.xmlValidate) (h10 : w1.fileDirAbs = w2.fileDirAbs)
    (h11 : w1.loadJson = w2.loadJson) (h12 : w1.mkValidator = w2.mkValidator)
    (h13 : w1.streamRead = w2.streamRead) (h14 : w1.jsonLoads = w2.jsonLoads)
    (h15 : w1.jsValidate = w2.jsValidate) :
    validategml d mode w1 = validategml d mode w2 ∧
    validategeojson d mode w1 = validategeojson d mode w2 ∧
    validateshapefile d mode w1 = validateshapefile d mode w2 ∧
    validategeotiff d mode w1 = validategeotiff d mode w2 := by
  obtain ⟨g1, o1, d1, z1, u1, e1, x1, s1, v1, f1, l1, m1, r1, j1, jv1⟩ := w1
  obtain ⟨g2, o2, d2, z2, u2, e2, x2, s2, v2, f2, l2, m2, r2, j2, jv2⟩ := w2
  simp only at h1 h2 h3 h4 h5 h6 h7 h8 h9 h10 h11 h12 h13 h14 h15
  subst h1 h2 h3 h4 h5 h6 h7 h8 h9 h10 h11 h12 h13 h14 h15
  exact ⟨rfl, rfl, rfl, rfl⟩

/-- Claim C8 witness: two calls with the same input, mode and world. -/
theorem validators_deterministic_witness :
    validategml dIn0 MODE.SIMPLE wOk = validategml dIn0 MODE.SIMPLE wOk ∧
    validategeojson dIn0 MODE.SIMPLE wOk = validategeojson dIn0 MODE.SIMPLE wOk ∧
    validateshapefile dIn0 MODE.SIMPLE wOk = validateshapefile dIn0 MODE.SIMPLE wOk ∧
    validategeotiff dIn0 MODE.SIMPLE wOk = validategeotiff dIn0 MODE.SIMPLE wOk :=
  validators_deterministic dIn0 MODE.SIMPLE wOk wOk
    rfl rfl rfl rfl rfl rfl rfl rfl rfl rfl rfl rfl rfl rfl rfl

/-- Claim C9: at MODE.SIMPLE, an absent declared MIME type together with
an absent guessed type passes — `None` equals the guessed member of the
comparison set. -/
theorem simple_none_none_passes (d : DataInput) (w : World)
    (hmt : d.data_format.mime_type = none) (hg : (w.guess_type d.file).1 = none) :
    validategml d MODE.SIMPLE w = .ok true ∧
    validategeojson d MODE.SIMPLE w = .ok true ∧
    validateshapefile d MODE.SIMPLE w = .ok (true, []) ∧
    validategeotiff d MODE.SIMPLE w = .ok true := by
  refine ⟨?_, ?_, ?_, ?_⟩ <;>
    simp [validategml, validategeojson, validateshapefile, validategeotiff,
          MODE.NONE, MODE.SIMPLE, MODE.STRICT, MODE.VERYSTRICT, hmt, hg, exceptPure]

/-- Claim C9 witness: a concrete input with no declared type and a world
whose guess yields nothing. -/
theorem simple_none_none_passes_witness :
    validategml dNone MODE.SIMPLE wNoGuess = .ok true ∧
    validategeojson dNone MODE.SIMPLE wNoGuess = .ok true ∧
    validateshapefile dNone MODE.SIMPLE wNoGuess = .ok (true, []) ∧
    validategeotiff dNone MODE.SIMPLE wNoGuess = .ok true :=
  simple_none_none_passes dNone wNoGuess rfl rfl

/-- Claim C10: at MODE.STRICT, `validateshapefile` extracts every member
of the archive into the input's scratch directory (the event list is the
whole namelist, in order), and when several members have extension
`.shp` the one occurring last in the member list is the one opened and
whose driver check decides the verdict. -/
theorem shapefile_extracts_all_last_shp_decides (d : DataInput) (w : World)
    (names : List String) (sn : String)
    (hzip : w.zipOpen d.file = .ok names)
    (hlast : (names.filter isShpName).getLast? = some sn) :
    validateshapefile d MODE.STRICT w =
      .ok (ogrDriverCheck (w.ogrOpen (pathJoin d.tempdir sn)) "ESRI Shapefile",
           names.map (fun n => ExtractEvent.mk n d.tempdir)) := by
  rw [shapefile_strict_spec d w names hzip, hlast]

/-- Claim C10 witness: an archive with two `.shp` members — every member
is extracted and the later member `b.shp` decides the verdict. -/
theorem shapefile_extracts_all_last_shp_decides_witness :
    validateshapefile dIn0 MODE.STRICT wShp =
      .ok (true, [⟨"a.dbf", "/tmp/scratch"⟩, ⟨"a.shp", "/tmp/scratch"⟩,
                  ⟨"b.shp", "/tmp/scratch"⟩]) :=
  shapefile_extracts_all_last_shp_decides dIn0 wShp ["a.dbf", "a.shp", "b.shp"] "b.shp"
    rfl (by rfl)
